import Mathlib

/-!
Verification of the content-aggregation and publishing pipeline in `main.py`.

The development shallowly embeds the pipeline: the HTML pages, the docx
template, the Mongo-backed dedup store, the LibreOffice renderer and the
Telegram client are replaced by explicit data (oracles and lists), and each
Python function becomes a Lean function over that data.  Side-effect-free
translations keep the source's control flow: loops become structural
recursions, `raise`/`except` become `Except`/`Option` values, and the
mutable paragraph list of the docx document becomes an explicit `List Para`
threaded through the same sequence of index-based edits that the source
performs.
-/

namespace GK

/-- Python's `needle in hay` substring test, on explicit character lists:
`matchesHere needle hay` checks that `needle` is an initial segment of `hay`. -/
def matchesHere : List Char → List Char → Bool
  | [], _ => true
  | _ :: _, [] => false
  | a :: as, b :: bs => a == b && matchesHere as bs

/-- `occursIn needle hay` is true when `needle` occurs contiguously in `hay`. -/
def occursIn (needle : List Char) : List Char → Bool
  | [] => needle.isEmpty
  | b :: t => matchesHere needle (b :: t) || occursIn needle t

/-- Python's `needle in hay` on strings. -/
def containsSub (needle hay : String) : Bool :=
  occursIn needle.data hay.data

/-- The `'type'` tags of the dictionaries built by `scrape_and_get_content`. -/
inductive BlockType
  | heading
  | paragraph
  | heading_2
  | heading_4
  | list_item
deriving DecidableEq

/-- One `{'type': ..., 'text': ...}` record of the scraped content list. -/
structure ContentBlock where
  type : BlockType
  text : String
deriving DecidableEq

/-- One paragraph of the docx document: its style name and its text. -/
structure Para where
  style : String
  text : String
deriving DecidableEq

/-- The docx document: its body paragraphs in order, plus whether the
template's style set defines the `List Bullet` style (python-docx raises
`KeyError` when a paragraph is assigned an undefined style name). -/
structure Doc where
  paragraphs : List Para
  hasListBullet : Bool
deriving DecidableEq

/-! ## Content extractor (`scrape_and_get_content`) -/

/-- One direct child of the main-content `div`: its tag name, its `class`
attribute (`None` or a list of class strings), its text, and — used when the
tag is `ul` — the texts of its `li` descendants. -/
structure Child where
  name : String
  classes : Option (List String)
  text : String
  listItems : List String
deriving DecidableEq

/-- The main-content container: the `h1#list` title text, if present, and
the container's direct children. -/
structure MainContent where
  heading : Option String
  children : List Child
deriving DecidableEq

/-- A fetched article page: the main-content `div` with class
`inside_post column content_width`, if present. -/
structure ArticlePage where
  mainContent : Option MainContent
deriving DecidableEq

/-- The outcome of `requests.get` plus parsing for one article URL:
either the request raised, or it produced a page. -/
inductive FetchResult
  | failure
  | success (page : ArticlePage)
deriving DecidableEq

/-- The exact class set of the share widget excluded at line 84 of the source. -/
def sharethisClasses : List String :=
  ["sharethis-inline-share-buttons", "st-center", "st-has-labels",
   "st-inline-share-buttons", "st-animated"]

/-- `tag.get('class') in [[...sharethis...], ['prenext']]`. -/
def isExcludedChild (c : Child) : Bool :=
  c.classes == some sharethisClasses || c.classes == some ["prenext"]

/-- The blocks contributed by one direct child of the main-content div
(the body of the `for tag in main_content.find_all(recursive=False)` loop). -/
def classifyChild (c : Child) : List ContentBlock :=
  if isExcludedChild c then []
  else if c.name == "p" then [⟨.paragraph, c.text⟩]
  else if c.name == "h2" then [⟨.heading_2, c.text⟩]
  else if c.name == "h4" then [⟨.heading_4, c.text⟩]
  else if c.name == "ul" then c.listItems.map fun t => ⟨.list_item, "• " ++ t⟩
  else []

/-- The blocks contributed by a list of direct children, in document order. -/
def classifyChildren : List Child → List ContentBlock
  | [] => []
  | c :: cs => classifyChild c ++ classifyChildren cs

/-- `scrape_and_get_content` (source lines 66–99): any of the three failure
points — fetch error, missing main-content div, missing `h1#list` heading —
raises, is caught by the function's own handler, and yields the content list
accumulated so far, which at those points is empty. -/
def scrape_and_get_content (r : FetchResult) : List ContentBlock :=
  match r with
  | .failure => []
  | .success page =>
    match page.mainContent with
    | none => []
    | some mc =>
      match mc.heading with
      | none => []
      | some t => ⟨.heading, t⟩ :: classifyChildren mc.children

/-! ## Document assembler (`insert_content_between_placeholders`) -/

/-- The placeholder scan (source lines 105–110): walk the paragraphs with
their indices; a paragraph containing `START_CONTENT` updates the start
index, otherwise the first paragraph containing `END_CONTENT` fixes the end
index and stops the scan. -/
def findPlaceholdersAux : List Para → Nat → Option Nat → Option Nat × Option Nat
  | [], _, s => (s, none)
  | p :: rest, i, s =>
    if containsSub "START_CONTENT" p.text then
      findPlaceholdersAux rest (i + 1) (some i)
    else if containsSub "END_CONTENT" p.text then
      (s, some i)
    else
      findPlaceholdersAux rest (i + 1) s

/-- The removal loop `for i in range(end_placeholder - 1, start_placeholder, -1)`
(source lines 115–117), called with `k` = the number of paragraphs strictly
between the placeholders.  Each pass removes the paragraph at index
`s + 1 + k'` for `k'` counting down, i.e. indices `e-1, e-2, ..., s+1`. -/
def removeBetweenLoop (s : Nat) : List Para → Nat → List Para
  | paras, 0 => paras
  | paras, k + 1 => removeBetweenLoop s (paras.eraseIdx (s + 1 + k)) k

/-- `addnext` on the start-placeholder element: the new paragraph becomes the
immediate successor of the paragraph at index `i`. -/
def insertAfter (paras : List Para) (i : Nat) (p : Para) : List Para :=
  paras.take (i + 1) ++ p :: paras.drop (i + 1)

/-- The paragraph created for one content block, together with whether the
`List Bullet`-missing fallback warning fired.  `doc.add_heading(t, level=n)`
creates a paragraph with style `Heading n`; `doc.add_paragraph(t, style=s)`
creates one with style `s`; assigning the undefined `List Bullet` style
raises `KeyError`, caught at source lines 133–135, which falls back to
`Normal` and logs a warning. -/
def renderBlock (hasLB : Bool) (b : ContentBlock) : Para × Bool :=
  match b.type with
  | .heading => (⟨"Heading 1", b.text⟩, false)
  | .paragraph => (⟨"Normal", b.text⟩, false)
  | .heading_2 => (⟨"Heading 2", b.text⟩, false)
  | .heading_4 => (⟨"Heading 4", b.text⟩, false)
  | .list_item =>
    if hasLB then (⟨"List Bullet", b.text⟩, false)
    else (⟨"Normal", b.text⟩, true)

/-- The insertion loop (source lines 121–135), run on the already-reversed
content list: each block's paragraph is inserted immediately after the start
placeholder (which stays at index `s`); the second component counts the
`List Bullet` fallback warnings. -/
def insertLoop (hasLB : Bool) (s : Nat) : List Para → Nat → List ContentBlock → List Para × Nat
  | paras, w, [] => (paras, w)
  | paras, w, b :: rest =>
    insertLoop hasLB s (insertAfter paras s (renderBlock hasLB b).1)
      (w + if (renderBlock hasLB b).2 then 1 else 0) rest

/-- `doc.paragraphs[i].text = t`: `none` models the `IndexError` raised when
`i` is out of range of the current paragraph list. -/
def setTextAt (paras : List Para) (i : Nat) (t : String) : Option (List Para) :=
  match paras[i]? with
  | some p => some (paras.set i { p with text := t })
  | none => none

/-- The two text-clearing statements at source lines 137–138, applied to the
paragraph list produced by removal and insertion: first
`doc.paragraphs[start_placeholder].text = ""`, then
`doc.paragraphs[end_placeholder].text = ""` — both using the indices found
on the original, pre-mutation paragraph list. -/
def insertFinish (hasLB : Bool) (s e : Nat) : List Para × Nat → Except String (Doc × Nat)
  | (paras, warns) =>
    match setTextAt paras s "" with
    | none => .error "IndexError: list index out of range"
    | some m1 =>
      match setTextAt m1 e "" with
      | none => .error "IndexError: list index out of range"
      | some m2 => .ok (⟨m2, hasLB⟩, warns)

/-- `insert_content_between_placeholders` (source lines 101–141).  The result
carries the final document and the number of style-fallback warnings; every
exception (missing placeholder, index error) is re-raised by the function's
`except` clause, modelled as `Except.error`. -/
def insert_content_between_placeholders (doc : Doc) (content_list : List ContentBlock) :
    Except String (Doc × Nat) :=
  match findPlaceholdersAux doc.paragraphs 0 none with
  | (some s, some e) =>
    insertFinish doc.hasListBullet s e
      (insertLoop doc.hasListBullet s
        (removeBetweenLoop s doc.paragraphs (e - 1 - s)) 0 content_list.reverse)
  | _ => .error "Could not find both placeholders"

/-! ## URL discovery (`fetch_article_urls`) -/

/-- The page loop of `fetch_article_urls` (source lines 54–61).  The listing
oracle returns the links found on a page, or `none` when fetching/parsing
that page raises.  The `try` wraps the whole loop (lines 53–63), so the first
failing page aborts the loop and the function returns the URLs accumulated so
far. -/
def fetchPagesLoop (listing : Nat → Option (List String)) : Nat → Nat → List String → List String
  | _, 0, acc => acc
  | page, fuel + 1, acc =>
    match listing page with
    | none => acc
    | some links => fetchPagesLoop listing (page + 1) fuel (acc ++ links)

/-- `fetch_article_urls` (source lines 50–64), abstracted over the listing
oracle; pages are numbered `1..pages`. -/
def fetch_article_urls (listing : Nat → Option (List String)) (pages : Nat) : List String :=
  fetchPagesLoop listing 1 pages []

/-! ## Dedup filter (`check_and_insert_urls`) -/

/-- The loop of `check_and_insert_urls` (source lines 159–164): skip quiz
URLs; `collection.find_one({'url': url})` is membership in the store;
`collection.insert_one({'url': url})` appends to the store.  Carries the
`new_urls` accumulator and the store. -/
def checkInsertLoop : List String → List String → List String → List String × List String
  | new_urls, store, [] => (new_urls, store)
  | new_urls, store, url :: rest =>
    if containsSub "daily-current-affairs-quiz" url then
      checkInsertLoop new_urls store rest
    else if url ∈ store then
      checkInsertLoop new_urls store rest
    else
      checkInsertLoop (new_urls ++ [url]) (store ++ [url]) rest

/-- `check_and_insert_urls` (source lines 155–167): returns the list of new
URLs and the final store contents. -/
def check_and_insert_urls (store urls : List String) : List String × List String :=
  checkInsertLoop [] store urls

/-! ## Publish step (`send_pdf_to_telegram`) -/

/-- Outcome of one `bot.send_document` call: success, `telegram.error.TimedOut`,
or any other exception. -/
inductive SendOutcome
  | success
  | timedOut
  | otherError
deriving DecidableEq

/-- How `send_pdf_to_telegram` ends: a normal return (recording whether any
attempt actually delivered the document and the total seconds slept), or an
exception propagating out. -/
inductive SendResult
  | ok (delivered : Bool) (slept : Nat)
  | error
deriving DecidableEq

/-- The `for _ in range(3)` retry loop (source lines 195–205): success breaks;
`TimedOut` sleeps 5 seconds and goes round again; any other exception
re-raises.  When the range is exhausted the loop simply ends and the function
returns normally. -/
def sendLoop (oracle : Nat → SendOutcome) : Nat → Nat → Nat → SendResult
  | 0, _, slept => .ok false slept
  | fuel + 1, attempt, slept =>
    match oracle attempt with
    | .success => .ok true slept
    | .timedOut => sendLoop oracle fuel (attempt + 1) (slept + 5)
    | .otherError => .error

/-- `send_pdf_to_telegram` (source lines 192–205), abstracted over the
per-attempt outcome oracle. -/
def send_pdf_to_telegram (oracle : Nat → SendOutcome) : SendResult :=
  sendLoop oracle 3 0 0

/-! ## Orchestrator (`main` and module setup) -/

/-- The environment variables the script reads. -/
structure Env where
  DB_NAME : Option String
  COLLECTION_NAME : Option String
  MONGO_CONNECTION_STRING : Option String
  TEMPLATE_URL : Option String
  TELEGRAM_BOT_TOKEN : Option String
  TELEGRAM_CHANNEL_ID : Option String
deriving DecidableEq

/-- The external world of one run: the listing-page oracle, the per-article
fetch oracle, the downloaded template (`none` when the download raises), the
LibreOffice conversion outcome, the Telegram oracle, and the initial dedup
store. -/
structure World where
  listing : Nat → Option (List String)
  article : String → FetchResult
  template : Option Doc
  convertOk : Bool
  telegram : Nat → SendOutcome
  store0 : List String

/-- Observable state of a run: final dedup store, the articles whose pages
were actually fetched by the extractor, whether assembly and render completed,
and the publish step's result if it ran. -/
structure RunState where
  store : List String
  scraped : List String
  assembled : Bool
  rendered : Bool
  sendResult : Option SendResult
deriving DecidableEq

/-- The per-URL loop of `main` (source lines 227–230): scrape, extend
`all_content`, then `english_titles.append(content_list[0]['text'])` — which
raises `IndexError` when the scrape returned an empty list, aborting the
loop.  Returns the list of URLs scraped so far and either the accumulated
(content, titles) or the error. -/
def collectLoop (article : String → FetchResult) :
    List String → List ContentBlock → List String → List String →
    List String × Except String (List ContentBlock × List String)
  | [], all, titles, scraped => (scraped, .ok (all, titles))
  | u :: rest, all, titles, scraped =>
    match scrape_and_get_content (article u) with
    | [] => (scraped ++ [u], .error "IndexError: list index out of range")
    | b :: bs =>
      collectLoop article rest (all ++ b :: bs) (titles ++ [b.text]) (scraped ++ [u])

/-- `main` (source lines 207–266).  The outer `except` re-raises every
exception, so each failure surfaces as an `Except.error` together with the
run state reached at that point. -/
def mainRun (env : Env) (w : World) : RunState × Except String Unit :=
  let nus := check_and_insert_urls w.store0 (fetch_article_urls w.listing 3)
  let st0 : RunState := ⟨nus.2, [], false, false, none⟩
  if nus.1 = [] then (st0, .ok ())
  else
    match env.TEMPLATE_URL with
    | none => (st0, .error "TEMPLATE_URL environment variable is not set")
    | some _ =>
      match w.template with
      | none => (st0, .error "template download failed")
      | some doc =>
        let cr := collectLoop w.article nus.1 [] [] []
        match cr.2 with
        | .error msg => (⟨nus.2, cr.1, false, false, none⟩, .error msg)
        | .ok ac =>
          match insert_content_between_placeholders doc ac.1 with
          | .error msg => (⟨nus.2, cr.1, false, false, none⟩, .error msg)
          | .ok _ =>
            if w.convertOk then
              match env.TELEGRAM_BOT_TOKEN, env.TELEGRAM_CHANNEL_ID with
              | some _, some _ =>
                match send_pdf_to_telegram w.telegram with
                | .error =>
                  (⟨nus.2, cr.1, true, true, some SendResult.error⟩,
                   .error "telegram send failed")
                | .ok d t =>
                  (⟨nus.2, cr.1, true, true, some (.ok d t)⟩, .ok ())
              | _, _ =>
                (⟨nus.2, cr.1, true, true, none⟩,
                 .error "TELEGRAM_BOT_TOKEN or TELEGRAM_CHANNEL_ID environment variable is not set")
            else (⟨nus.2, cr.1, true, false, none⟩, .error "conversion failed")

/-- Module setup (source lines 38–48) followed by `main`: the three MongoDB
environment variables are checked at import time, before any pipeline code
runs. -/
def runScript (env : Env) (w : World) : RunState × Except String Unit :=
  if env.DB_NAME = none ∨ env.COLLECTION_NAME = none ∨ env.MONGO_CONNECTION_STRING = none then
    (⟨w.store0, [], false, false, none⟩,
     .error "One or more required MongoDB environment variables are not set")
  else mainRun env w

/-! ## Helper lemmas about the assembler -/

/-- Taking at most the length of the left part of an append stays in it. -/
theorem take_append_left {α : Type} (l₁ l₂ : List α) (n : Nat) (h : n ≤ l₁.length) :
    (l₁ ++ l₂).take n = l₁.take n := by
  rw [List.take_append_eq_append_take]
  have : n - l₁.length = 0 := by omega
  simp [this]

/-- Dropping at least the length of the left part of an append discards it. -/
theorem drop_append_left {α : Type} (l₁ l₂ : List α) (n : Nat) (h : l₁.length ≤ n) :
    (l₁ ++ l₂).drop n = l₂.drop (n - l₁.length) := by
  rw [List.drop_append_eq_append_drop]
  have : l₁.drop n = [] := by
    apply List.drop_eq_nil_of_le h
  simp [this]

/-- When the placeholder scan reports both indices, the start index is
strictly before the end index, and the end index is within the paragraph
list. -/
theorem findAux_bounds :
    ∀ (paras : List Para) (i : Nat) (s0 : Option Nat) (s e : Nat),
      (∀ v, s0 = some v → v < i) →
      findPlaceholdersAux paras i s0 = (some s, some e) →
      s < e ∧ i ≤ e ∧ e < i + paras.length
  | [], i, s0, s, e, hacc, h => by
    simp [findPlaceholdersAux] at h
  | p :: rest, i, s0, s, e, hacc, h => by
    rw [findPlaceholdersAux] at h
    by_cases h1 : containsSub "START_CONTENT" p.text = true
    · rw [if_pos h1] at h
      have ih := findAux_bounds rest (i + 1) (some i) s e
        (by intro v hv; injection hv with hv; omega) h
      simp only [List.length_cons]
      exact ⟨ih.1, by omega, by omega⟩
    · rw [if_neg h1] at h
      by_cases h2 : containsSub "END_CONTENT" p.text = true
      · rw [if_pos h2] at h
        have hpair := Prod.mk.injEq (α := Option Nat) (β := Option Nat) s0 (some i) (some s) (some e)
        rw [hpair] at h
        obtain ⟨hs0, hi⟩ := h
        injection hi with hi
        have hs := hacc s hs0
        simp only [List.length_cons]
        exact ⟨by omega, by omega, by omega⟩
      · rw [if_neg h2] at h
        have ih := findAux_bounds rest (i + 1) s0 s e
          (by intro v hv; have := hacc v hv; omega) h
        simp only [List.length_cons]
        exact ⟨ih.1, by omega, by omega⟩

/-- The reverse-order removal loop removes exactly the paragraphs at indices
`s+1 .. s+k` (strictly between the placeholders when `k = e - 1 - s`). -/
theorem removeBetweenLoop_eq (s : Nat) :
    ∀ (k : Nat) (paras : List Para), s + 1 + k ≤ paras.length →
      removeBetweenLoop s paras k = paras.take (s + 1) ++ paras.drop (s + 1 + k)
  | 0, paras, _ => by
    rw [removeBetweenLoop]
    exact (List.take_append_drop (s + 1) paras).symm
  | k + 1, paras, h => by
    rw [removeBetweenLoop]
    have hi : s + 1 + k < paras.length := by omega
    have hlen : (paras.eraseIdx (s + 1 + k)).length = paras.length - 1 := by
      simp [List.length_eraseIdx, hi]
    rw [removeBetweenLoop_eq s k (paras.eraseIdx (s + 1 + k)) (by omega)]
    rw [List.eraseIdx_eq_take_drop_succ]
    have hlt : (paras.take (s + 1 + k)).length = s + 1 + k := by
      simp [List.length_take]; omega
    rw [take_append_left _ _ (s + 1) (by omega)]
    rw [drop_append_left _ _ (s + 1 + k) (by omega)]
    rw [List.take_take]
    have hmin : min (s + 1) (s + 1 + k) = s + 1 := by omega
    rw [hmin, hlt]
    simp only [Nat.sub_self, List.drop_zero]
    congr 1

/-- The number of `List Bullet` fallback warnings that rendering a content
list produces. -/
def warnCount (hasLB : Bool) (cl : List ContentBlock) : Nat :=
  (cl.filter fun b => (renderBlock hasLB b).2).length

/-- Rendering order does not change the number of fallback warnings. -/
theorem warnCount_reverse (hasLB : Bool) (cl : List ContentBlock) :
    warnCount hasLB cl.reverse = warnCount hasLB cl := by
  unfold warnCount
  rw [List.filter_reverse, List.length_reverse]

/-- Repeated insertion immediately after the fixed anchor index `s`, fed the
blocks in the given order, lays their rendered paragraphs down in *reversed*
order right after the anchor. -/
theorem insertLoop_eq (hasLB : Bool) (s : Nat) :
    ∀ (bs : List ContentBlock) (paras : List Para) (w : Nat), s + 1 ≤ paras.length →
      insertLoop hasLB s paras w bs =
        (paras.take (s + 1) ++ (bs.reverse.map fun b => (renderBlock hasLB b).1)
          ++ paras.drop (s + 1),
         w + warnCount hasLB bs)
  | [], paras, w, _ => by
    simp [insertLoop, warnCount, List.take_append_drop]
  | b :: rest, paras, w, h => by
    rw [insertLoop]
    have htk : (paras.take (s + 1)).length = s + 1 := by
      simp [List.length_take]; omega
    have hlen : s + 1 ≤ (insertAfter paras s (renderBlock hasLB b).1).length := by
      simp [insertAfter, List.length_append]
      omega
    rw [insertLoop_eq hasLB s rest _ _ hlen]
    unfold insertAfter
    rw [take_append_left _ _ (s + 1) (by omega)]
    rw [drop_append_left _ _ (s + 1) (by omega)]
    rw [List.take_take, htk]
    have hmin : min (s + 1) (s + 1) = s + 1 := by omega
    rw [hmin]
    simp only [Nat.sub_self, List.drop_zero, List.reverse_cons, List.map_append,
      List.map_cons, List.map_nil, List.append_assoc, List.cons_append, List.nil_append]
    rw [Prod.mk.injEq]
    refine ⟨rfl, ?_⟩
    · unfold warnCount
      rw [List.filter_cons]
      by_cases hw : (renderBlock hasLB b).2 = true
      · simp [hw]; omega
      · simp [hw]

/-- Characterisation of `insert_content_between_placeholders` once the
placeholder scan has found indices `s < e`: the paragraphs strictly between
the placeholders are removed, the rendered blocks appear in order after the
start placeholder, and then the two text-clearing writes of lines 137–138 are
applied at indices `s` and `e` of the *new* list. -/
theorem insert_content_eq_of_found (doc : Doc) (cl : List ContentBlock) (s e : Nat)
    (hf : findPlaceholdersAux doc.paragraphs 0 none = (some s, some e)) :
    insert_content_between_placeholders doc cl =
      insertFinish doc.hasListBullet s e
        (doc.paragraphs.take (s + 1)
          ++ (cl.map fun b => (renderBlock doc.hasListBullet b).1)
          ++ doc.paragraphs.drop e,
         warnCount doc.hasListBullet cl) := by
  have hb := findAux_bounds doc.paragraphs 0 none s e (by intro v hv; cases hv) hf
  obtain ⟨hse, -, hel⟩ := hb
  rw [insert_content_between_placeholders, hf]
  show insertFinish doc.hasListBullet s e
      (insertLoop doc.hasListBullet s
        (removeBetweenLoop s doc.paragraphs (e - 1 - s)) 0 cl.reverse) = _
  have h1 : s + 1 + (e - 1 - s) ≤ doc.paragraphs.length := by omega
  rw [removeBetweenLoop_eq s (e - 1 - s) doc.paragraphs h1]
  have he : s + 1 + (e - 1 - s) = e := by omega
  rw [he]
  have htk : (doc.paragraphs.take (s + 1)).length = s + 1 := by
    simp [List.length_take]; omega
  have h2 : s + 1 ≤ (doc.paragraphs.take (s + 1) ++ doc.paragraphs.drop e).length := by
    simp [List.length_append]
    omega
  rw [insertLoop_eq doc.hasListBullet s cl.reverse _ 0 h2]
  rw [List.reverse_reverse, warnCount_reverse]
  rw [take_append_left _ _ (s + 1) (by omega)]
  rw [drop_append_left _ _ (s + 1) (by omega)]
  rw [List.take_take, htk]
  have hmin : min (s + 1) (s + 1) = s + 1 := by omega
  rw [hmin]
  simp

/-! ## Helper lemmas about the extractor -/

/-- No block produced for a direct child of the main-content div is a
`heading` block: that tag is only ever emitted for the `h1#list` title. -/
theorem classifyChild_mem_type (c : Child) (b : ContentBlock) (hb : b ∈ classifyChild c) :
    b.type ≠ BlockType.heading := by
  unfold classifyChild at hb
  split at hb
  · cases hb
  · split at hb
    · rw [List.mem_singleton] at hb
      subst hb
      simp
    · split at hb
      · rw [List.mem_singleton] at hb
        subst hb
        simp
      · split at hb
        · rw [List.mem_singleton] at hb
          subst hb
          simp
        · split at hb
          · obtain ⟨t, -, ht⟩ := List.mem_map.mp hb
            subst ht
            simp
          · cases hb

/-- The child loop of the extractor contributes no `heading` block at all. -/
theorem classifyChildren_countP (cs : List Child) :
    (classifyChildren cs).countP (fun b => b.type == BlockType.heading) = 0 := by
  induction cs with
  | nil => simp [classifyChildren]
  | cons c cs ih =>
    rw [classifyChildren, List.countP_append, ih, Nat.add_zero, List.countP_eq_zero]
    intro a ha
    have := classifyChild_mem_type c a ha
    simp [this]

/-! ## Helper lemmas about the dedup filter -/

/-- Invariant of the dedup loop: a URL in the store that is not already in the
accumulated `new_urls` never enters the result. -/
theorem checkInsertLoop_not_reselect (u : String) :
    ∀ (urls new store : List String), u ∈ store → u ∉ new →
      u ∉ (checkInsertLoop new store urls).1
  | [], new, _store, _hs, hn => by
    rw [checkInsertLoop]
    exact hn
  | url :: rest, new, store, hs, hn => by
    rw [checkInsertLoop]
    by_cases h1 : containsSub "daily-current-affairs-quiz" url = true
    · rw [if_pos h1]
      exact checkInsertLoop_not_reselect u rest new store hs hn
    · rw [if_neg h1]
      by_cases h2 : url ∈ store
      · rw [if_pos h2]
        exact checkInsertLoop_not_reselect u rest new store hs hn
      · rw [if_neg h2]
        refine checkInsertLoop_not_reselect u rest (new ++ [url]) (store ++ [url])
          (List.mem_append_left _ hs) ?_
        intro hmem
        rcases List.mem_append.mp hmem with h | h
        · exact hn h
        · have := List.mem_singleton.mp h
          subst this
          exact h2 hs

/-- Invariant of the dedup loop: if the accumulated `new_urls` has no
duplicates and is contained in the store, the final `new_urls` has no
duplicates — every accepted URL is inserted into the store at acceptance
time, so a later duplicate in the input fails the membership check. -/
theorem checkInsertLoop_nodup :
    ∀ (urls new store : List String), new.Nodup → (∀ x ∈ new, x ∈ store) →
      (checkInsertLoop new store urls).1.Nodup
  | [], new, _store, hnd, _hsub => by
    rw [checkInsertLoop]
    exact hnd
  | url :: rest, new, store, hnd, hsub => by
    rw [checkInsertLoop]
    by_cases h1 : containsSub "daily-current-affairs-quiz" url = true
    · rw [if_pos h1]
      exact checkInsertLoop_nodup rest new store hnd hsub
    · rw [if_neg h1]
      by_cases h2 : url ∈ store
      · rw [if_pos h2]
        exact checkInsertLoop_nodup rest new store hnd hsub
      · rw [if_neg h2]
        refine checkInsertLoop_nodup rest (new ++ [url]) (store ++ [url]) ?_ ?_
        · rw [List.nodup_append]
          refine ⟨hnd, List.nodup_singleton url, ?_⟩
          intro x hx hx2
          have := List.mem_singleton.mp hx2
          subst this
          exact h2 (hsub x hx)
        · intro x hx
          rcases List.mem_append.mp hx with h | h
          · exact List.mem_append_left _ (hsub x h)
          · exact List.mem_append_right _ h

/-! ## Helper lemma about URL discovery -/

/-- When every page before `page + fuel₁` succeeds and page `page + fuel₁`
fails, running the discovery loop with any larger fuel gives the same result
as running it with fuel `fuel₁`: the failing page aborts the whole loop. -/
theorem fetchPagesLoop_stops (listing : Nat → Option (List String)) :
    ∀ (fuel₁ fuel₂ page : Nat) (acc : List String),
      fuel₁ < fuel₂ →
      (∀ i, page ≤ i → i < page + fuel₁ → listing i ≠ none) →
      listing (page + fuel₁) = none →
      fetchPagesLoop listing page fuel₂ acc = fetchPagesLoop listing page fuel₁ acc
  | 0, fuel₂, page, acc, hf, _hok, hnone => by
    rw [Nat.add_zero] at hnone
    match fuel₂, hf with
    | f + 1, _ =>
      rw [fetchPagesLoop, fetchPagesLoop, hnone]
  | fuel₁ + 1, fuel₂, page, acc, hf, hok, hnone => by
    have hp : listing page ≠ none := hok page (Nat.le_refl page) (by omega)
    obtain ⟨links, hl⟩ : ∃ l, listing page = some l := by
      cases hll : listing page with
      | none => exact absurd hll hp
      | some l => exact ⟨l, rfl⟩
    match fuel₂, hf with
    | f + 1, hf =>
      rw [fetchPagesLoop, fetchPagesLoop, hl]
      have hshift : page + 1 + fuel₁ = page + (fuel₁ + 1) := by omega
      refine fetchPagesLoop_stops listing fuel₁ f (page + 1) (acc ++ links) (by omega) ?_ ?_
      · intro i hi1 hi2
        exact hok i (by omega) (by omega)
      · rw [hshift]
        exact hnone

/-! ## Concrete instances used by the claim theorems -/

/-- The template of the spec's worked scenario: paragraphs
`[..., "START_CONTENT", "OLD", "END_CONTENT", ...]`. -/
def templateC1 : Doc :=
  ⟨[⟨"Normal", "Intro"⟩, ⟨"Normal", "START_CONTENT"⟩, ⟨"Normal", "OLD"⟩,
    ⟨"Normal", "END_CONTENT"⟩, ⟨"Normal", "Outro"⟩], true⟩

/-- The merged content of the spec's worked scenario:
`[Heading("T"), Paragraph("P1")]`. -/
def contentC1 : List ContentBlock := [⟨.heading, "T"⟩, ⟨.paragraph, "P1"⟩]

/-- A template with two paragraphs between the sentinels and two paragraphs
after the end sentinel. -/
def templateC2 : Doc :=
  ⟨[⟨"Normal", "START_CONTENT"⟩, ⟨"Normal", "OLD1"⟩, ⟨"Normal", "OLD2"⟩,
    ⟨"Normal", "END_CONTENT"⟩, ⟨"Normal", "Z"⟩, ⟨"Normal", "W"⟩], true⟩

/-- An environment with every required variable set. -/
def happyEnv : Env :=
  ⟨some "db", some "coll", some "mongo", some "turl", some "tok", some "chan"⟩

/-- A well-formed article page: main-content div present, `h1#list` title
present, one body paragraph. -/
def pageOne : ArticlePage :=
  ⟨some ⟨some "Title One", [⟨"p", none, "Body", []⟩]⟩⟩

/-- A world in which every external collaborator behaves: one fresh article
URL on the first listing page, a well-formed article, a template with both
sentinels, a working converter and a Telegram client that succeeds at once. -/
def happyWorld : World where
  listing := fun p => if p == 1 then some ["u1"] else some []
  article := fun _ => .success pageOne
  template := some templateC1
  convertOk := true
  telegram := fun _ => .success
  store0 := []

/-- A listing oracle whose first page fails and whose other pages carry a
link. -/
def listingC5 : Nat → Option (List String) :=
  fun p => if p == 1 then none else some ["pageTwoLink"]

/-- A listing oracle whose second page fails and whose other pages carry a
link. -/
def listingC5w : Nat → Option (List String) :=
  fun p => if p == 2 then none else some ["x"]

/-- A world in which the first discovered article fails to fetch and the
second is well-formed. -/
def worldC4 : World :=
  { happyWorld with
    listing := fun p => if p == 1 then some ["u1", "u2"] else some []
    article := fun u =>
      if u == "u2" then .success ⟨some ⟨some "Title Two", [⟨"p", none, "Body two", []⟩]⟩⟩
      else .failure }

/-- A template whose style set lacks the `List Bullet` style. -/
def docC8 : Doc :=
  ⟨[⟨"Normal", "START_CONTENT"⟩, ⟨"Normal", "END_CONTENT"⟩], false⟩

/-! ## Claim theorems -/

/-- C1: on the spec's worked scenario — template paragraphs
`[Intro, "START_CONTENT", "OLD", "END_CONTENT", Outro]` and merged content
`[Heading "T", Paragraph "P1"]` — the claim expects
`[Intro, "", Heading "T", Paragraph "P1", "", Outro]`, both sentinels
retained with their text cleared.  The code instead clears the end
sentinel's text at its *stale* pre-mutation index 3, which after removal and
insertion addresses the freshly inserted `Paragraph "P1"`: the result blanks
the inserted paragraph and leaves the end sentinel's marker text
`"END_CONTENT"` intact. -/
theorem C1_scenario_stale_end_clear :
    insert_content_between_placeholders templateC1 contentC1 =
      Except.ok
        (⟨[⟨"Normal", "Intro"⟩, ⟨"Normal", ""⟩, ⟨"Heading 1", "T"⟩,
           ⟨"Normal", ""⟩, ⟨"Normal", "END_CONTENT"⟩, ⟨"Normal", "Outro"⟩], true⟩, 0) := rfl

/-- C2: the claim says assembly leaves every structural element outside the
sentinel region unchanged and modifies only the two sentinels' text.  On the
template `["START_CONTENT", "OLD1", "OLD2", "END_CONTENT", "Z", "W"]` with
empty merged content, the code clears the text of the trailing paragraph
`"W"` — an element strictly *outside* the region — at the stale end index 3,
and leaves the end sentinel's `"END_CONTENT"` text in place. -/
theorem C2_frame_violated :
    insert_content_between_placeholders templateC2 [] =
      Except.ok
        (⟨[⟨"Normal", ""⟩, ⟨"Normal", "END_CONTENT"⟩, ⟨"Normal", "Z"⟩,
           ⟨"Normal", ""⟩], true⟩, 0) := rfl

/-- C3 (counterexample): a publisher that times out on every attempt — in
particular one that would time out four times in a row — does *not* make the
run fail: the retry loop makes its three attempts, each timeout is swallowed,
the loop ends without raising, and the run is reported successful with
nothing delivered. -/
theorem C3_counterexample :
    runScript happyEnv { happyWorld with telegram := fun _ => SendOutcome.timedOut } =
      (⟨["u1"], ["u1"], true, true, some (SendResult.ok false 15)⟩, Except.ok ()) := rfl

/-- C3 (amended): the publish step makes at most 3 attempts with a fixed
5-second sleep after each timeout; a call that times out fewer than 3 times
and then succeeds is accepted; a non-timeout error raises immediately without
retry; and exhausting all 3 attempts with timeouts is *not* fatal — the
function returns normally with nothing delivered. -/
theorem C3_retry_behaviour (oracle : Nat → SendOutcome) (k : Nat) :
    ((∀ i, i < 3 → oracle i = .timedOut) →
      send_pdf_to_telegram oracle = .ok false 15) ∧
    (k < 3 → (∀ i, i < k → oracle i = .timedOut) → oracle k = .success →
      send_pdf_to_telegram oracle = .ok true (5 * k)) ∧
    (k < 3 → (∀ i, i < k → oracle i = .timedOut) → oracle k = .otherError →
      send_pdf_to_telegram oracle = .error) := by
  refine ⟨?_, ?_, ?_⟩
  · intro h
    have h0 := h 0 (by omega)
    have h1 := h 1 (by omega)
    have h2 := h 2 (by omega)
    simp [send_pdf_to_telegram, sendLoop, h0, h1, h2]
  · intro hk h hs
    interval_cases k
    · simp [send_pdf_to_telegram, sendLoop, hs]
    · have h0 := h 0 (by omega)
      simp [send_pdf_to_telegram, sendLoop, h0, hs]
    · have h0 := h 0 (by omega)
      have h1 := h 1 (by omega)
      simp [send_pdf_to_telegram, sendLoop, h0, h1, hs]
  · intro hk h hs
    interval_cases k
    · simp [send_pdf_to_telegram, sendLoop, hs]
    · have h0 := h 0 (by omega)
      simp [send_pdf_to_telegram, sendLoop, h0, hs]
    · have h0 := h 0 (by omega)
      have h1 := h 1 (by omega)
      simp [send_pdf_to_telegram, sendLoop, h0, h1, hs]

/-- C3 (witness): the amended behaviour at concrete oracles — all-timeouts
returns normally undelivered; immediate success delivers with no sleep;
an immediate non-timeout error raises. -/
theorem C3_retry_behaviour_witness :
    send_pdf_to_telegram (fun _ => SendOutcome.timedOut) = .ok false 15 ∧
    send_pdf_to_telegram (fun _ => SendOutcome.success) = .ok true 0 ∧
    send_pdf_to_telegram (fun _ => SendOutcome.otherError) = .error :=
  ⟨(C3_retry_behaviour (fun _ => SendOutcome.timedOut) 0).1 (fun _ _ => rfl),
   (C3_retry_behaviour (fun _ => SendOutcome.success) 0).2.1 (by omega)
     (fun i hi => absurd hi (Nat.not_lt_zero i)) rfl,
   (C3_retry_behaviour (fun _ => SendOutcome.otherError) 0).2.2 (by omega)
     (fun i hi => absurd hi (Nat.not_lt_zero i)) rfl⟩

/-- C4: the extractor itself catches the fetch failure and returns an empty
content list, but the orchestrator then evaluates `content_list[0]['text']`
on that empty list, raising `IndexError` and aborting the whole run: with
articles `u1` (fetch fails) and `u2` (well-formed), the run errors out after
scraping only `u1` — `u2` is never extracted, contradicting the claim that
one article's failure never prevents the remaining articles from being
processed. -/
theorem C4_failed_extraction_aborts_run :
    scrape_and_get_content (worldC4.article "u1") = [] ∧
    runScript happyEnv worldC4 =
      (⟨["u1", "u2"], ["u1"], false, false, none⟩,
       Except.error "IndexError: list index out of range") :=
  ⟨rfl, rfl⟩

/-- C5 (counterexample): with a listing oracle failing on page 1 and carrying
`"pageTwoLink"` on page 2, discovery over 2 pages returns `[]` — the failure
on page 1 prevents page 2 from contributing its links, contrary to the
claim that processing continues with the next page. -/
theorem C5_counterexample :
    fetch_article_urls listingC5 2 = [] ∧ listingC5 2 = some ["pageTwoLink"] :=
  ⟨rfl, rfl⟩

/-- C5 (amended): a fetch/parse failure on page `k` is caught inside
`fetch_article_urls` (no exception escapes, the function totally returns),
but it aborts the whole page loop: the result is exactly the URLs
accumulated from pages `1..k-1`, and pages `k+1..pages` are never fetched. -/
theorem C5_page_failure_aborts_loop (listing : Nat → Option (List String)) (pages k : Nat)
    (hk1 : 1 ≤ k) (hk2 : k ≤ pages) (hnone : listing k = none)
    (hok : ∀ i, 1 ≤ i → i < k → listing i ≠ none) :
    fetch_article_urls listing pages = fetch_article_urls listing (k - 1) := by
  unfold fetch_article_urls
  refine fetchPagesLoop_stops listing (k - 1) pages 1 [] (by omega) ?_ ?_
  · intro i hi1 hi2
    exact hok i hi1 (by omega)
  · have h1 : 1 + (k - 1) = k := by omega
    rw [h1]
    exact hnone

/-- C5 (witness): with page 2 failing out of 3 pages, the run over 3 pages
collects exactly what a run over page 1 alone collects. -/
theorem C5_page_failure_aborts_loop_witness :
    fetch_article_urls listingC5w 3 = fetch_article_urls listingC5w 1 :=
  C5_page_failure_aborts_loop listingC5w 3 2 (by omega) (by omega) rfl
    (by
      intro i h1 h2
      have : i = 1 := by omega
      subst this
      simp [listingC5w])

/-- C6 (counterexample): with the three MongoDB variables set but
`TEMPLATE_URL` absent, the run does fail with the configuration error — but
only *after* discovery and the dedup-store write: the store already contains
the freshly discovered URL `"u1"` when the error is raised, contradicting
"before any pipeline work has begun". -/
theorem C6_counterexample :
    runScript { happyEnv with TEMPLATE_URL := none } happyWorld =
      (⟨["u1"], [], false, false, none⟩,
       Except.error "TEMPLATE_URL environment variable is not set") ∧
    happyWorld.store0 = [] :=
  ⟨rfl, rfl⟩

/-- C6 (amended): the three database variables are checked at import time,
before any pipeline work; the template address is checked only after URL
discovery and the dedup-store writes (and not at all when no new URL was
found); and the publisher credentials are checked only after extraction,
assembly and render have completed. -/
theorem C6_staged_config_checks (env : Env) (w : World) :
    ((env.DB_NAME = none ∨ env.COLLECTION_NAME = none ∨ env.MONGO_CONNECTION_STRING = none) →
      runScript env w =
        (⟨w.store0, [], false, false, none⟩,
         .error "One or more required MongoDB environment variables are not set")) ∧
    (env.DB_NAME ≠ none → env.COLLECTION_NAME ≠ none → env.MONGO_CONNECTION_STRING ≠ none →
      env.TEMPLATE_URL = none →
      (check_and_insert_urls w.store0 (fetch_article_urls w.listing 3)).1 ≠ [] →
      runScript env w =
        (⟨(check_and_insert_urls w.store0 (fetch_article_urls w.listing 3)).2,
          [], false, false, none⟩,
         .error "TEMPLATE_URL environment variable is not set")) ∧
    (runScript { happyEnv with TELEGRAM_BOT_TOKEN := none } happyWorld =
      (⟨["u1"], ["u1"], true, true, none⟩,
       .error "TELEGRAM_BOT_TOKEN or TELEGRAM_CHANNEL_ID environment variable is not set")) := by
  refine ⟨?_, ?_, rfl⟩
  · intro h
    rw [runScript, if_pos h]
  · intro h1 h2 h3 hT hne
    rw [runScript, if_neg (by tauto), mainRun]
    simp only []
    rw [if_neg hne, hT]

/-- C6 (witness): the amended claim at concrete inputs — a missing Mongo
connection string aborts with the untouched store, and a missing template
address aborts with the store already holding the discovered URL. -/
theorem C6_staged_config_checks_witness :
    runScript { happyEnv with MONGO_CONNECTION_STRING := none } happyWorld =
      (⟨[], [], false, false, none⟩,
       .error "One or more required MongoDB environment variables are not set") ∧
    runScript { happyEnv with TEMPLATE_URL := none } happyWorld =
      (⟨["u1"], [], false, false, none⟩,
       .error "TEMPLATE_URL environment variable is not set") :=
  ⟨(C6_staged_config_checks { happyEnv with MONGO_CONNECTION_STRING := none } happyWorld).1
     (Or.inr (Or.inr rfl)),
   (C6_staged_config_checks { happyEnv with TEMPLATE_URL := none } happyWorld).2.1
     (by simp [happyEnv]) (by simp [happyEnv]) (by simp [happyEnv]) rfl (by decide)⟩

/-- C7: for every fetched article, if the extracted content list is
non-empty then its first block is a `heading` block, and the whole list
contains exactly one `heading` block. -/
theorem C7_heading_invariant (fr : FetchResult)
    (h : scrape_and_get_content fr ≠ []) :
    (∃ t, (scrape_and_get_content fr).head? = some ⟨BlockType.heading, t⟩) ∧
    (scrape_and_get_content fr).countP (fun b => b.type == BlockType.heading) = 1 := by
  match fr with
  | .failure => exact absurd rfl h
  | .success page =>
    match hmc : page.mainContent with
    | none =>
      simp [scrape_and_get_content, hmc] at h
    | some mc =>
      match hh : mc.heading with
      | none =>
        simp [scrape_and_get_content, hmc, hh] at h
      | some t =>
        have hs : scrape_and_get_content (.success page) =
            ⟨BlockType.heading, t⟩ :: classifyChildren mc.children := by
          simp [scrape_and_get_content, hmc, hh]
        rw [hs]
        refine ⟨⟨t, rfl⟩, ?_⟩
        rw [List.countP_cons_of_pos _ _ (by simp), classifyChildren_countP]

/-- C7 (witness): the invariant at a concrete well-formed page. -/
theorem C7_heading_invariant_witness :
    (∃ t, (scrape_and_get_content (.success pageOne)).head? =
      some ⟨BlockType.heading, t⟩) ∧
    (scrape_and_get_content (.success pageOne)).countP
      (fun b => b.type == BlockType.heading) = 1 :=
  C7_heading_invariant (.success pageOne) (by decide)

/-- C8: when the template's style set lacks the bulleted-list style, a
`list_item` block is rendered as a default-style (`Normal`) paragraph with
the identical text (bullet glyph included) and one warning is surfaced per
such block; non-list blocks render exactly as they would with the style
present; and the assembled document is the one obtained by laying those
rendered paragraphs, in order, between the sentinels. -/
theorem C8_style_fallback :
    (∀ b : ContentBlock, b.type = BlockType.list_item →
      renderBlock false b = (⟨"Normal", b.text⟩, true)) ∧
    (∀ b : ContentBlock, b.type ≠ BlockType.list_item →
      renderBlock false b = renderBlock true b) ∧
    (∀ cl : List ContentBlock,
      warnCount false cl = (cl.filter fun b => b.type == BlockType.list_item).length) ∧
    (∀ (doc : Doc) (cl : List ContentBlock) (s e : Nat),
      doc.hasListBullet = false →
      findPlaceholdersAux doc.paragraphs 0 none = (some s, some e) →
      insert_content_between_placeholders doc cl =
        insertFinish false s e
          (doc.paragraphs.take (s + 1) ++ (cl.map fun b => (renderBlock false b).1)
            ++ doc.paragraphs.drop e,
           warnCount false cl)) := by
  have hflag : ∀ b : ContentBlock, (renderBlock false b).2 = (b.type == BlockType.list_item) := by
    intro b
    obtain ⟨ty, tx⟩ := b
    cases ty <;> rfl
  refine ⟨?_, ?_, ?_, ?_⟩
  · intro b hb
    obtain ⟨ty, tx⟩ := b
    simp only at hb
    subst hb
    rfl
  · intro b hb
    obtain ⟨ty, tx⟩ := b
    cases ty
    · rfl
    · rfl
    · rfl
    · rfl
    · exact absurd rfl hb
  · intro cl
    unfold warnCount
    have : (fun b => (renderBlock false b).2) = (fun b : ContentBlock => b.type == BlockType.list_item) :=
      funext hflag
    rw [this]
  · intro doc cl s e hLB hf
    have h := insert_content_eq_of_found doc cl s e hf
    rw [hLB] at h
    exact h

/-- C8 (witness): the fallback at a concrete template lacking `List Bullet`
and a concrete bulleted block. -/
theorem C8_style_fallback_witness :
    renderBlock false ⟨BlockType.list_item, "• item"⟩ = (⟨"Normal", "• item"⟩, true) ∧
    renderBlock false ⟨BlockType.heading, "h"⟩ = renderBlock true ⟨BlockType.heading, "h"⟩ ∧
    warnCount false [⟨BlockType.list_item, "• item"⟩] =
      ([⟨BlockType.list_item, "• item"⟩].filter
        fun b : ContentBlock => b.type == BlockType.list_item).length ∧
    insert_content_between_placeholders docC8 [⟨BlockType.list_item, "• item"⟩] =
      insertFinish false 0 1
        (docC8.paragraphs.take 1 ++ [⟨"Normal", "• item"⟩] ++ docC8.paragraphs.drop 1, 1) :=
  ⟨C8_style_fallback.1 ⟨BlockType.list_item, "• item"⟩ rfl,
   C8_style_fallback.2.1 ⟨BlockType.heading, "h"⟩ (by decide),
   C8_style_fallback.2.2.1 [⟨BlockType.list_item, "• item"⟩],
   C8_style_fallback.2.2.2 docC8 [⟨BlockType.list_item, "• item"⟩] 0 1 rfl rfl⟩

/-- C9: a URL already present in the dedup store when filtering starts is
never selected into the returned list of new URLs, no matter how often it
occurs among the candidates. -/
theorem C9_store_url_never_reselected (store urls : List String) (u : String)
    (hu : u ∈ store) :
    u ∉ (check_and_insert_urls store urls).1 :=
  checkInsertLoop_not_reselect u urls [] store hu (by simp)

/-- C9 (witness): a stored URL occurring twice among the candidates is not
reselected. -/
theorem C9_store_url_never_reselected_witness :
    "a" ∉ (check_and_insert_urls ["a"] ["a", "b", "a"]).1 :=
  C9_store_url_never_reselected ["a"] ["a", "b", "a"] "a" (by simp)

/-- C10: the list of new URLs returned by the dedup filter never contains a
URL twice, even when the candidate list repeats it: each accepted URL is
inserted into the store at acceptance time, so its later occurrences fail the
membership check. -/
theorem C10_new_urls_nodup (store urls : List String) :
    ((check_and_insert_urls store urls).1).Nodup :=
  checkInsertLoop_nodup urls [] store List.nodup_nil (by simp)

end GK
